import Mathlib

/-!
Shallow embedding of the focus-timer front end (timer.js and theme.js).

The timer module keeps module-level mutable state
(`timerState`, `secondsLeft`, `intervalId`, `sessionLocked`), a
`beforeunload` listener registration, some display classes, and issues
POST reports to the scoring backend.  We embed that state as a record
`Sys` and each JS function as a state transformer.  Reports are recorded
in the order the corresponding `fetch` calls are issued (issuing does not
depend on the network outcome).  The periodic `tick` callback can only
fire while a `setInterval` handle is active, which the step relation
below enforces.
-/

namespace FocusApp

/-- `timerState` enum of timer.js: 'idle' | 'running' | 'done'. -/
inductive TimerState where
  | idle
  | running
  | done
deriving DecidableEq, Repr

/-- One outcome report issued to the backend: a POST to the win endpoint,
or a POST to the loss endpoint carrying its `keepalive` flag. -/
inductive Report where
  | win
  | loss (keepalive : Bool)
deriving DecidableEq, Repr

/-- The timer module's state: the module-level variables of timer.js,
the `beforeunload` listener registration, the display classes touched by
the timer, the list of issued reports, and how often `preventDefault`
has been called by the unload handler. -/
structure Sys where
  timerState : TimerState
  secondsLeft : Int
  intervalActive : Bool
  sessionLocked : Bool
  unloadGuard : Bool
  dangerClass : Bool
  runningClass : Bool
  reports : List Report
  preventedCount : Nat
deriving DecidableEq, Repr

/-- `TOTAL_SECONDS = 25 * 60`. -/
def TOTAL_SECONDS : Int := 25 * 60

/-- `DANGER_THRESHOLD = 60`. -/
def DANGER_THRESHOLD : Int := 60

/-- Module state right after loading timer.js: `timerState = 'idle'`,
`secondsLeft = TOTAL_SECONDS`, no interval, not locked, no unload
listener, no classes added, nothing reported. -/
def initSys : Sys :=
  { timerState := .idle
    secondsLeft := TOTAL_SECONDS
    intervalActive := false
    sessionLocked := false
    unloadGuard := false
    dangerClass := false
    runningClass := false
    reports := []
    preventedCount := 0 }

/-- `tick()`: decrement `secondsLeft`; if `secondsLeft <= DANGER_THRESHOLD`
add the danger class and remove the running class; if `secondsLeft <= 0`
clear the interval, set `sessionLocked`, set state to done, remove the
`beforeunload` listener and issue the win report. -/
def tick (s : Sys) : Sys :=
  let s1 := { s with secondsLeft := s.secondsLeft - 1 }
  let s2 :=
    if s1.secondsLeft ≤ DANGER_THRESHOLD then
      { s1 with dangerClass := true, runningClass := false }
    else s1
  if s2.secondsLeft ≤ 0 then
    { s2 with
        intervalActive := false
        sessionLocked := true
        timerState := .done
        unloadGuard := false
        reports := s2.reports ++ [Report.win] }
  else s2

/-- `startTimer()`: no-op when already running; otherwise set state to
running, clear the lock, add the running class, remove the danger class,
start the interval and attach the `beforeunload` listener.
`secondsLeft` is not touched. -/
def startTimer (s : Sys) : Sys :=
  if s.timerState = .running then s
  else
    { s with
        timerState := .running
        sessionLocked := false
        runningClass := true
        dangerClass := false
        intervalActive := true
        unloadGuard := true }

/-- `resetTimer()`: clear the interval, restore `secondsLeft` to
`TOTAL_SECONDS`, state idle, lock cleared, classes reset, and remove the
`beforeunload` listener. -/
def resetTimer (s : Sys) : Sys :=
  { s with
      intervalActive := false
      secondsLeft := TOTAL_SECONDS
      timerState := .idle
      sessionLocked := false
      runningClass := false
      dangerClass := false
      unloadGuard := false }

/-- `abandonSession()`: no-op unless running; otherwise clear the
interval, set the lock, state done, remove the `beforeunload` listener
and issue a loss report with `keepalive = false`. -/
def abandonSession (s : Sys) : Sys :=
  if s.timerState ≠ .running then s
  else
    { s with
        intervalActive := false
        sessionLocked := true
        timerState := .done
        unloadGuard := false
        reports := s.reports ++ [Report.loss false] }

/-- `handleBeforeUnload(e)`: return immediately when `sessionLocked` or
not running; otherwise issue a keepalive loss report and call
`e.preventDefault()`.  Note: it does NOT set `sessionLocked`. -/
def handleBeforeUnload (s : Sys) : Sys :=
  if s.sessionLocked = true ∨ s.timerState ≠ .running then s
  else
    { s with
        reports := s.reports ++ [Report.loss true]
        preventedCount := s.preventedCount + 1 }

/-- Number of win reports in a report list. -/
def countWins (rs : List Report) : Nat :=
  rs.count Report.win

/-- Number of loss reports (either keepalive mode) in a report list. -/
def countLosses (rs : List Report) : Nat :=
  rs.countP (fun r => match r with | .loss _ => true | _ => false)

/-- One event the page can deliver to the timer module: a click on
start or abandon, a firing of the interval callback (only possible while
the interval is active), or a click on "battle again" (reset). -/
inductive Step : Sys → Sys → Prop where
  | start (s : Sys) : Step s (startTimer s)
  | tick (s : Sys) (h : s.intervalActive = true) : Step s (tick s)
  | abandon (s : Sys) : Step s (abandonSession s)
  | reset (s : Sys) : Step s (resetTimer s)

/-- States reachable from the initial module state by clicks, resets and
interval firings. -/
def Reachable (s : Sys) : Prop :=
  Relation.ReflTransGen Step initSys s

/-- The state right after a fresh `startTimer()` from the initial page
load. -/
def fresh : Sys := startTimer initSys

/-- Closed form of the state after `k` ticks of a fresh session, valid
while the session is still running (`k ≤ 1499`): `secondsLeft` has
dropped to `TOTAL_SECONDS - k`, and the danger class has been applied
exactly when at most 60 seconds remain, i.e. when `1440 ≤ k`. -/
def runState (k : Nat) : Sys :=
  { timerState := .running
    secondsLeft := TOTAL_SECONDS - k
    intervalActive := true
    sessionLocked := false
    unloadGuard := true
    dangerClass := decide (1440 ≤ k)
    runningClass := decide (k < 1440)
    reports := []
    preventedCount := 0 }

/-- The state right after natural completion of a fresh session. -/
def doneS : Sys :=
  { timerState := .done
    secondsLeft := 0
    intervalActive := false
    sessionLocked := true
    unloadGuard := false
    dangerClass := true
    runningClass := false
    reports := [Report.win]
    preventedCount := 0 }

/-- State obtained by letting a fresh session run to natural completion
and then clicking start again without resetting: `startTimer` does not
restore `secondsLeft`, so the next interval firing decrements it below
zero. -/
def overrunS : Sys := tick (startTimer (tick^[1500] fresh))

/-- Guarded step relation: the same events, except that a start click is
only delivered while the session is not in the `done` state (the page
enforces this by keeping the start control hidden and disabled until the
"battle again" reset). -/
inductive StepG : Sys → Sys → Prop where
  | start (s : Sys) (h : s.timerState ≠ .done) : StepG s (startTimer s)
  | tick (s : Sys) (h : s.intervalActive = true) : StepG s (tick s)
  | abandon (s : Sys) : StepG s (abandonSession s)
  | reset (s : Sys) : StepG s (resetTimer s)

/-- States reachable when start is never invoked in the done state. -/
def ReachableG (s : Sys) : Prop :=
  Relation.ReflTransGen StepG initSys s

/-- Inductive invariant for the guarded system: `secondsLeft` stays in
`[0, TOTAL_SECONDS]`, a live interval implies a running session with at
least one second left, and an idle session has the full duration left. -/
def SysInv (s : Sys) : Prop :=
  0 ≤ s.secondsLeft ∧ s.secondsLeft ≤ TOTAL_SECONDS ∧
    (s.intervalActive = true → s.timerState = .running ∧ 1 ≤ s.secondsLeft) ∧
    (s.timerState = .idle → s.secondsLeft = TOTAL_SECONDS)

/-!
Embedding of theme.js: theme names, the body class list, the
localStorage slot under `THEME_KEY`, and the theme pill buttons.
-/

/-- `DEFAULT_THEME = 'theme-lofi'`. -/
def DEFAULT_THEME : String := "theme-lofi"

/-- `VALID_THEMES`, the fixed valid theme class names. -/
def VALID_THEMES : List String :=
  ["theme-lofi", "theme-porsche", "theme-f1", "theme-nyc", "theme-liquid"]

/-- One theme pill button: its `data-theme` attribute and whether its
class list currently holds `active`. -/
structure Pill where
  themeName : String
  active : Bool
deriving DecidableEq, Repr

/-- The DOM and storage that theme.js touches: whether the page root
element `app-body` exists, its class list, the persisted value under
`THEME_KEY`, and the theme pill buttons. -/
structure ThemeDom where
  bodyPresent : Bool
  bodyClasses : List String
  storage : Option String
  pills : List Pill
deriving DecidableEq, Repr

/-- `applyTheme(themeName)`: substitute the default for a name outside
`VALID_THEMES`; return early when the page root is missing; otherwise
remove every valid theme class from the root, add the selected one,
persist it under `THEME_KEY`, and toggle each pill's `active` class on
whether its `data-theme` equals the selection. -/
def applyTheme (themeName : String) (d : ThemeDom) : ThemeDom :=
  let name := if themeName ∈ VALID_THEMES then themeName else DEFAULT_THEME
  if d.bodyPresent = false then d
  else
    let cs := VALID_THEMES.foldl (fun acc t => acc.filter (fun c => c ≠ t)) d.bodyClasses
    let cs := if name ∈ cs then cs else cs ++ [name]
    { d with
        bodyClasses := cs
        storage := some name
        pills := d.pills.map (fun p => { p with active := p.themeName == name }) }

/-!
Embedding of the outcome-report calls and the result overlay.  A fetch
either yields a stats record or throws a network error; `reportWin` and
`reportLoss` catch the error, log it, and return null.
-/

/-- Aggregate stats record returned by the scoring backend. -/
structure Stats where
  wins : Nat
  losses : Nat
  streak : Nat
deriving DecidableEq, Repr

/-- Outcome of one fetch to the backend: a parsed JSON stats body, or a
thrown network error. -/
inductive FetchResult where
  | success (stats : Stats)
  | networkError
deriving DecidableEq, Repr

/-- `reportWin()`: await the fetch; on error log and return null. -/
def reportWin : FetchResult → Option Stats
  | .success st => some st
  | .networkError => none

/-- `reportLoss(keepalive)`: await the fetch (issued with the given
keepalive flag); on error log and return null. -/
def reportLoss (keepalive : Bool) : FetchResult → Option Stats
  | .success st => some st
  | .networkError => none

/-- Which result the overlay announces. -/
inductive ResultType where
  | win
  | loss
deriving DecidableEq, Repr

/-- The result-overlay and dashboard elements that `showResult` writes. -/
structure Ui where
  overlayHidden : Bool
  icon : String
  title : String
  message : String
  rWins : Nat
  rLosses : Nat
  rStreak : Nat
  chipWins : Nat
  chipLosses : Nat
  chipStreak : Nat
deriving DecidableEq, Repr

/-- `showResult(type, stats)`: write the icon, title and message for the
result type; when `stats` is non-null copy its counters into the overlay
rows and the dashboard chips; finally unhide the overlay.  When `stats`
is null the numbers are left as they were. -/
def showResult (ty : ResultType) (stats : Option Stats) (ui : Ui) : Ui :=
  let ui1 :=
    match ty with
    | .win =>
      { ui with
          icon := "🏆"
          title := "Victory!"
          message := "You stayed locked in. Respect." }
    | .loss =>
      { ui with
          icon := "💀"
          title := "Defeated."
          message := "You left early. Streak reset. Try again." }
  let ui2 :=
    match stats with
    | some st =>
      { ui1 with
          rWins := st.wins
          rLosses := st.losses
          rStreak := st.streak
          chipWins := st.wins
          chipLosses := st.losses
          chipStreak := st.streak }
    | none => ui1
  { ui2 with overlayHidden := false }

/-!
Supporting lemmas.
-/

theorem TOTAL_SECONDS_eq : TOTAL_SECONDS = 1500 := by norm_num [TOTAL_SECONDS]

theorem tick_runState (k : Nat) (hk : k ≤ 1498) :
    tick (runState k) = runState (k + 1) := by
  simp only [tick, runState, DANGER_THRESHOLD, TOTAL_SECONDS_eq]
  split_ifs with hd hz hz <;> dsimp only at hd hz ⊢
  · exfalso; omega
  · simp only [Sys.mk.injEq, and_true, true_and]
    exact ⟨by push_cast; ring, (decide_eq_true (by omega)).symm,
      (decide_eq_false (by omega)).symm⟩
  · exfalso; omega
  · simp only [Sys.mk.injEq, and_true, true_and]
    refine ⟨by push_cast; ring, ?_, ?_⟩ <;> (rw [decide_eq_decide]; omega)

theorem iterate_runState (k : Nat) (hk : k ≤ 1499) :
    tick^[k] fresh = runState k := by
  induction k with
  | zero => decide
  | succ n ih =>
    rw [Function.iterate_succ_apply', ih (by omega),
      tick_runState n (by omega)]

theorem iterate_1500 : tick^[1500] fresh = doneS := by
  rw [show (1500 : Nat) = 1499 + 1 from rfl, Function.iterate_succ_apply',
    iterate_runState 1499 (by omega)]
  decide

theorem reachable_fresh : Reachable fresh :=
  Relation.ReflTransGen.single (Step.start initSys)

theorem reachable_iterate (k : Nat) (hk : k ≤ 1500) :
    Reachable (tick^[k] fresh) := by
  induction k with
  | zero => exact reachable_fresh
  | succ n ih =>
    rw [Function.iterate_succ_apply']
    refine Relation.ReflTransGen.tail (ih (by omega)) (Step.tick _ ?_)
    rw [iterate_runState n (by omega)]
    rfl

theorem overrunS_val :
    overrunS =
      { timerState := .done
        secondsLeft := -1
        intervalActive := false
        sessionLocked := true
        unloadGuard := false
        dangerClass := true
        runningClass := false
        reports := [Report.win, Report.win]
        preventedCount := 0 } := by
  rw [overrunS, iterate_1500]
  decide

theorem reachable_overrunS : Reachable overrunS := by
  have h1 : Reachable (startTimer (tick^[1500] fresh)) :=
    Relation.ReflTransGen.tail (reachable_iterate 1500 (by omega))
      (Step.start _)
  refine Relation.ReflTransGen.tail h1 (Step.tick _ ?_)
  rw [iterate_1500]
  rfl

theorem sysInv_startTimer (s : Sys) (hs : SysInv s)
    (hg : s.timerState ≠ .done) : SysInv (startTimer s) := by
  obtain ⟨h0, h1, h2, h3⟩ := hs
  by_cases hr : s.timerState = .running
  · rw [startTimer, if_pos hr]
    exact ⟨h0, h1, h2, h3⟩
  · have hi : s.timerState = .idle := by
      cases h : s.timerState <;> simp_all
    have hsl : s.secondsLeft = TOTAL_SECONDS := h3 hi
    rw [startTimer, if_neg hr]
    refine ⟨h0, h1, fun _ => ⟨rfl, ?_⟩, fun hc => by simp at hc⟩
    show (1 : Int) ≤ s.secondsLeft
    rw [TOTAL_SECONDS_eq] at hsl
    omega

theorem sysInv_tick (s : Sys) (hs : SysInv s)
    (hi : s.intervalActive = true) : SysInv (tick s) := by
  obtain ⟨h0, h1, h2, h3⟩ := hs
  obtain ⟨hrun, hone⟩ := h2 hi
  rw [TOTAL_SECONDS_eq] at h1
  simp only [SysInv, tick, DANGER_THRESHOLD]
  split_ifs with hd hz hz <;> dsimp only at hd hz ⊢ <;>
    rw [TOTAL_SECONDS_eq] <;>
    refine ⟨by omega, by omega, ?_, ?_⟩
  · intro hc; cases hc
  · intro hc; cases hc
  · intro _; exact ⟨hrun, by omega⟩
  · rw [hrun]; intro hc; cases hc
  · intro hc; cases hc
  · intro hc; cases hc
  · intro _; exact ⟨hrun, by omega⟩
  · rw [hrun]; intro hc; cases hc

theorem sysInv_abandonSession (s : Sys) (hs : SysInv s) :
    SysInv (abandonSession s) := by
  obtain ⟨h0, h1, h2, h3⟩ := hs
  by_cases hr : s.timerState = .running
  · rw [abandonSession, if_neg (not_not_intro hr)]
    exact ⟨h0, h1, fun hc => by simp at hc,
      fun hc => by simp at hc⟩
  · rw [abandonSession, if_pos hr]
    exact ⟨h0, h1, h2, h3⟩

theorem sysInv_resetTimer (s : Sys) : SysInv (resetTimer s) :=
  ⟨show (0 : Int) ≤ TOTAL_SECONDS by norm_num [TOTAL_SECONDS],
    le_refl _, fun hc => by simp [resetTimer] at hc, fun _ => rfl⟩

theorem sysInv_reachableG (s : Sys) (h : ReachableG s) : SysInv s := by
  induction h with
  | refl =>
    exact ⟨show (0 : Int) ≤ TOTAL_SECONDS by norm_num [TOTAL_SECONDS],
      le_refl _, fun hc => by simp [initSys] at hc, fun _ => rfl⟩
  | tail _ hstep ih =>
    cases hstep with
    | start hg => exact sysInv_startTimer _ ih hg
    | tick hi => exact sysInv_tick _ ih hi
    | abandon => exact sysInv_abandonSession _ ih
    | reset => exact sysInv_resetTimer _

/-!
Claim theorems.
-/

/-- C1: the claim says a second `beforeunload` firing in succession sends
no further loss report because the lock flag is set after the first
firing.  The code disagrees: `handleBeforeUnload` never writes
`sessionLocked`, so from a fresh running unlocked session the first
firing issues one loss report and leaves the lock unset, and a second
firing in succession issues a second loss report. -/
theorem c1_unload_never_locks :
    countLosses (handleBeforeUnload fresh).reports = 1 ∧
    (handleBeforeUnload fresh).sessionLocked = false ∧
    countLosses (handleBeforeUnload (handleBeforeUnload fresh)).reports = 2 := by
  decide

/-- C2 (counterexample): `secondsRemaining` is not bounded within
`[0, TOTAL_SECONDS]` over all sequences of start, tick, abandon and
reset: letting a fresh session tick to natural completion and clicking
start again without a reset reaches, after one more interval firing, a
state with `secondsLeft = -1` (`startTimer` does not restore
`secondsLeft`). -/
theorem c2_bounds_counterexample :
    Reachable overrunS ∧
      ¬(0 ≤ overrunS.secondsLeft ∧ overrunS.secondsLeft ≤ TOTAL_SECONDS) := by
  refine ⟨reachable_overrunS, ?_⟩
  rw [overrunS_val]
  decide

/-- C2 (amended): in every state reachable by start, tick, abandon and
reset in which start is never invoked while the state is done (the page
enforces this by hiding the start control until reset), `secondsLeft`
stays within `[0, TOTAL_SECONDS]`. -/
theorem c2_bounds_amended (s : Sys) (h : ReachableG s) :
    0 ≤ s.secondsLeft ∧ s.secondsLeft ≤ TOTAL_SECONDS :=
  ⟨(sysInv_reachableG s h).1, (sysInv_reachableG s h).2.1⟩

/-- Witness for C2 (amended): the state after a start click and one
interval firing is reachable under the guard and satisfies the bounds. -/
theorem c2_bounds_amended_witness :
    ReachableG (tick fresh) ∧
      (0 ≤ (tick fresh).secondsLeft ∧ (tick fresh).secondsLeft ≤ TOTAL_SECONDS) := by
  have hreach : ReachableG (tick fresh) :=
    Relation.ReflTransGen.tail
      (Relation.ReflTransGen.single (StepG.start initSys (by decide)))
      (StepG.tick fresh (by decide))
  exact ⟨hreach, c2_bounds_amended _ hreach⟩

/-- C3: after exactly `TOTAL_SECONDS` interval firings from a fresh
start, the state is done, exactly one win report has been issued, and
the `beforeunload` guard is no longer registered. -/
theorem c3_natural_completion :
    (tick^[1500] fresh).timerState = .done ∧
    countWins (tick^[1500] fresh).reports = 1 ∧
    (tick^[1500] fresh).unloadGuard = false := by
  rw [iterate_1500]
  decide

/-- C4: abandoning while running issues exactly one loss report (with
`keepalive = false`), transitions to done, sets the lock flag, and makes
any subsequent `beforeunload` firing a no-op. -/
theorem c4_abandon_reports_once (s : Sys) (h : s.timerState = .running) :
    (abandonSession s).reports = s.reports ++ [Report.loss false] ∧
    (abandonSession s).timerState = .done ∧
    (abandonSession s).sessionLocked = true ∧
    handleBeforeUnload (abandonSession s) = abandonSession s := by
  have ha : abandonSession s =
      { s with
          intervalActive := false
          sessionLocked := true
          timerState := .done
          unloadGuard := false
          reports := s.reports ++ [Report.loss false] } := by
    rw [abandonSession, if_neg (not_not_intro h)]
  rw [ha]
  exact ⟨rfl, rfl, rfl, by rw [handleBeforeUnload, if_pos (Or.inl rfl)]⟩

/-- Witness for C4 at the fresh running session. -/
theorem c4_abandon_reports_once_witness :
    fresh.timerState = .running ∧
      ((abandonSession fresh).reports = fresh.reports ++ [Report.loss false] ∧
        (abandonSession fresh).timerState = .done ∧
        (abandonSession fresh).sessionLocked = true ∧
        handleBeforeUnload (abandonSession fresh) = abandonSession fresh) :=
  ⟨by decide, c4_abandon_reports_once fresh (by decide)⟩

/-- C5: applying any string outside the valid-theme set, with the page
root present, leaves the default theme active on the root (every other
valid theme class removed) and persists the default to storage. -/
theorem c5_invalid_theme_defaults (name : String) (d : ThemeDom)
    (hname : name ∉ VALID_THEMES) (hbody : d.bodyPresent = true) :
    DEFAULT_THEME ∈ (applyTheme name d).bodyClasses ∧
    (∀ t ∈ VALID_THEMES, t ≠ DEFAULT_THEME →
      t ∉ (applyTheme name d).bodyClasses) ∧
    (applyTheme name d).storage = some DEFAULT_THEME := by
  simp only [applyTheme, if_neg hname, hbody]
  norm_num
  constructor
  · split_ifs with hmem
    · exact hmem
    · simp
  · intro t ht hne
    split_ifs with hmem <;>
      simp_all [VALID_THEMES, DEFAULT_THEME, List.mem_filter] <;>
      rcases ht with rfl | rfl | rfl | rfl <;> simp

/-- Witness for C5 at a concrete invalid theme name and concrete DOM. -/
theorem c5_invalid_theme_defaults_witness :
    "theme-vaporwave" ∉ VALID_THEMES ∧
      (∀ t ∈ VALID_THEMES, t ≠ DEFAULT_THEME →
        t ∉ (applyTheme "theme-vaporwave"
          { bodyPresent := true
            bodyClasses := ["theme-f1", "misc"]
            storage := some "theme-f1"
            pills := [{ themeName := "theme-f1", active := true }] }).bodyClasses) ∧
      (applyTheme "theme-vaporwave"
          { bodyPresent := true
            bodyClasses := ["theme-f1", "misc"]
            storage := some "theme-f1"
            pills := [{ themeName := "theme-f1", active := true }] }).storage
        = some DEFAULT_THEME :=
  ⟨by decide,
    (c5_invalid_theme_defaults "theme-vaporwave" _ (by decide) (by decide)).2.1,
    (c5_invalid_theme_defaults "theme-vaporwave" _ (by decide) (by decide)).2.2⟩

/-- C6: a network error on an outcome report is caught and returned as a
null stats value rather than propagated, the overlay still renders
(unhidden) with the displayed numbers unchanged, and the completion
transition that triggered the win report still reaches the done state. -/
theorem c6_network_failure_nonblocking (ty : ResultType) (ui : Ui) (ka : Bool) :
    reportWin .networkError = none ∧
    reportLoss ka .networkError = none ∧
    (showResult ty (reportWin .networkError) ui).overlayHidden = false ∧
    (showResult ty (reportWin .networkError) ui).rWins = ui.rWins ∧
    (showResult ty (reportWin .networkError) ui).rLosses = ui.rLosses ∧
    (showResult ty (reportWin .networkError) ui).rStreak = ui.rStreak ∧
    (showResult ty (reportLoss ka .networkError) ui).overlayHidden = false ∧
    (tick^[1500] fresh).timerState = .done := by
  cases ty <;> simp [reportWin, reportLoss, showResult, iterate_1500, doneS]

/-- Witness for C6 at a concrete result type and overlay state. -/
theorem c6_network_failure_nonblocking_witness :
    reportWin .networkError = none ∧
      (showResult .win (reportWin .networkError)
        { overlayHidden := true, icon := "", title := "", message := ""
          rWins := 3, rLosses := 2, rStreak := 1
          chipWins := 3, chipLosses := 2, chipStreak := 1 }).rWins = 3 :=
  ⟨(c6_network_failure_nonblocking .win
      { overlayHidden := true, icon := "", title := "", message := ""
        rWins := 3, rLosses := 2, rStreak := 1
        chipWins := 3, chipLosses := 2, chipStreak := 1 } false).1,
    (c6_network_failure_nonblocking .win
      { overlayHidden := true, icon := "", title := "", message := ""
        rWins := 3, rLosses := 2, rStreak := 1
        chipWins := 3, chipLosses := 2, chipStreak := 1 } false).2.2.2.1⟩

/-- C7: in a fresh session, after 1440 interval firings 60 seconds
remain and the danger class is set; the danger class stays set through
every later firing up to completion; and after 1500 firings zero seconds
remain, the state is done and exactly one win has been reported. -/
theorem c7_danger_window (k : Nat) (h1 : 1440 ≤ k) (h2 : k ≤ 1500) :
    (tick^[1440] fresh).secondsLeft = 60 ∧
    (tick^[1440] fresh).dangerClass = true ∧
    (tick^[k] fresh).dangerClass = true ∧
    (tick^[1500] fresh).secondsLeft = 0 ∧
    (tick^[1500] fresh).timerState = .done ∧
    countWins (tick^[1500] fresh).reports = 1 := by
  have h1440 := iterate_runState 1440 (by omega)
  refine ⟨?_, ?_, ?_, ?_, ?_, ?_⟩
  · rw [h1440]; decide
  · rw [h1440]; decide
  · by_cases hk : k ≤ 1499
    · rw [iterate_runState k hk]
      exact decide_eq_true h1
    · rw [show k = 1500 by omega, iterate_1500]; decide
  · rw [iterate_1500]; decide
  · rw [iterate_1500]; decide
  · rw [iterate_1500]; decide

/-- Witness for C7 in the middle of the danger window. -/
theorem c7_danger_window_witness :
    (1440 ≤ 1450 ∧ 1450 ≤ 1500) ∧ (tick^[1450] fresh).dangerClass = true :=
  ⟨by decide, (c7_danger_window 1450 (by decide) (by decide)).2.2.1⟩

/-- C8: a start click while already running leaves the whole module
state unchanged, including `secondsLeft`, the state, the lock flag, the
interval and the listener registration. -/
theorem c8_start_idempotent (s : Sys) (h : s.timerState = .running) :
    startTimer s = s := by
  rw [startTimer, if_pos h]

/-- Witness for C8 at the fresh running session. -/
theorem c8_start_idempotent_witness :
    fresh.timerState = .running ∧ startTimer fresh = fresh :=
  ⟨by decide, c8_start_idempotent fresh (by decide)⟩

/-- C9: resetting after done restores `secondsLeft` to `TOTAL_SECONDS`,
returns to idle, clears the lock and the `beforeunload` registration,
and re-arms the session: a subsequent start followed by abandon issues
exactly one new loss report and reaches done locked, and a subsequent
start followed by a `beforeunload` firing issues exactly one new
keepalive loss report and calls `preventDefault`, as in a fresh
session. -/
theorem c9_reset_rearms (s : Sys) (h : s.timerState = .done) :
    (resetTimer s).secondsLeft = TOTAL_SECONDS ∧
    (resetTimer s).timerState = .idle ∧
    (resetTimer s).sessionLocked = false ∧
    (resetTimer s).unloadGuard = false ∧
    (abandonSession (startTimer (resetTimer s))).reports
      = s.reports ++ [Report.loss false] ∧
    (abandonSession (startTimer (resetTimer s))).timerState = .done ∧
    (abandonSession (startTimer (resetTimer s))).sessionLocked = true ∧
    (handleBeforeUnload (startTimer (resetTimer s))).reports
      = s.reports ++ [Report.loss true] ∧
    (handleBeforeUnload (startTimer (resetTimer s))).preventedCount
      = s.preventedCount + 1 := by
  simp [resetTimer, startTimer, abandonSession, handleBeforeUnload]

/-- Witness for C9 at the completed session state. -/
theorem c9_reset_rearms_witness :
    doneS.timerState = .done ∧
      (resetTimer doneS).secondsLeft = TOTAL_SECONDS ∧
      (handleBeforeUnload (startTimer (resetTimer doneS))).reports
        = doneS.reports ++ [Report.loss true] :=
  ⟨by decide, (c9_reset_rearms doneS (by decide)).1,
    (c9_reset_rearms doneS (by decide)).2.2.2.2.2.2.2.1⟩

/-- C10: a `beforeunload` firing while the lock flag is set, or while
the state is idle or done, leaves the module state exactly as it was: no
report is issued, nothing is mutated, and `preventDefault` is not
called. -/
theorem c10_unload_guard_noop (s : Sys)
    (h : s.sessionLocked = true ∨ s.timerState = .idle ∨ s.timerState = .done) :
    handleBeforeUnload s = s := by
  have hcond : s.sessionLocked = true ∨ s.timerState ≠ .running := by
    rcases h with h | h | h
    · exact Or.inl h
    · exact Or.inr (by rw [h]; decide)
    · exact Or.inr (by rw [h]; decide)
  rw [handleBeforeUnload, if_pos hcond]

/-- Witness for C10 at the completed (locked, done) session state. -/
theorem c10_unload_guard_noop_witness :
    (doneS.sessionLocked = true ∨ doneS.timerState = .idle ∨
        doneS.timerState = .done) ∧
      handleBeforeUnload doneS = doneS :=
  ⟨by decide, c10_unload_guard_noop doneS (by decide)⟩

end FocusApp
